/-
Verification of the calibrated chunked time-series store of shepherd-datalib.

Shallow embedding of:
  * `shepherd_core/data_models/base/calibration.py` (CalibrationPair, CalibrationSeries),
  * `shepherd_core/reader.py` (BaseReader: open, is_valid, read_buffers, energy,
    _dset_statistics, data_timediffs, check_timediffs, attribute getters),
  * `shepherd_data/cli.py` (the downsample command's per-factor skip logic).

Python/numpy float values are modelled as exact rationals (`ℚ`); the real-valued
statistics that need `sqrt` (numpy `std`) are modelled over `ℝ`.  HDF5 datasets
are modelled as lists of rationals, HDF5 attributes as `Option` fields.
-/
import Mathlib

set_option autoImplicit false
set_option maxHeartbeats 1000000
set_option maxRecDepth 8192

namespace Shepherd

/-! ## Calibration (`data_models/base/calibration.py`) -/

/-- `class CalibrationPair(ShpModel)`: affine raw/SI conversion for one channel.
The pydantic field declaration is `gain: PositiveFloat`, `offset: float = 0`. -/
structure CalibrationPair where
  gain : ℚ
  offset : ℚ := 0
  deriving DecidableEq, Repr

/-- Error taxonomy used by the embedding (pydantic `ValidationError` is what the
spec calls `ConfigurationError`; `keyError` models a Python `KeyError`;
`zeroDivision` models `ZeroDivisionError`; `fileNotFound` models
`FileNotFoundError`). -/
inductive ShpError where
  | validationError
  | fileNotFound
  | keyError
  | zeroDivision
  deriving DecidableEq, Repr

/-- Constructing `CalibrationPair(gain=..., offset=...)`: pydantic validates the
`PositiveFloat` annotation at construction time, so `gain <= 0` raises a
`ValidationError` and no object is produced. -/
def CalibrationPair.construct (gain : ℚ) (offset : ℚ) :
    Except ShpError CalibrationPair :=
  if 0 < gain then .ok ⟨gain, offset⟩ else .error .validationError

/-- `CalibrationPair.raw_to_si` (scalar path):
`values_si = values_raw * self.gain + self.offset; values_si = float(max(values_si, 0.0))`. -/
def CalibrationPair.raw_to_si (c : CalibrationPair) (values_raw : ℚ) : ℚ :=
  let values_si := values_raw * c.gain + c.offset
  max values_si 0

/-- `CalibrationPair.si_to_raw` (scalar path):
`values_raw = (values_si - self.offset) / self.gain; values_raw = max(values_raw, 0.0)`. -/
def CalibrationPair.si_to_raw (c : CalibrationPair) (values_si : ℚ) : ℚ :=
  let values_raw := (values_si - c.offset) / c.gain
  max values_raw 0

/-- `class CalibrationSeries(ShpModel)`: one pair per channel with the default
gains from the source (3e-9, 250e-12, 1e-9). -/
structure CalibrationSeries where
  voltage : CalibrationPair := ⟨3 * (1 / 10 ^ 9), 0⟩
  current : CalibrationPair := ⟨250 * (1 / 10 ^ 12), 0⟩
  time : CalibrationPair := ⟨1 / 10 ^ 9, 0⟩
  deriving DecidableEq, Repr

/-! ## HDF5 store model (`shepherd_core/reader.py`)

An HDF5 dataset is a 1-D sequence of numbers with optional `gain`/`offset`
attributes; a store file carries the mandatory `data` group (optional here so
that a malformed file without it is representable), top-level `mode`/`hostname`
attributes and group-level `datatype`/`window_samples`/`config` attributes.
The `config` attribute is stored as a serialized document; it is modelled in
already-parsed form as a key-value list.  The three channel datasets are always
present in the model (none of the verified claims concerns a store with a
missing dataset). -/

structure H5Dataset where
  data : List ℚ
  gain : Option ℚ := none
  offset : Option ℚ := none
  deriving DecidableEq, Repr

structure H5DataGroup where
  time : H5Dataset
  voltage : H5Dataset
  current : H5Dataset
  datatype : Option String := none
  window_samples : Option Nat := none
  config : Option (List (String × String)) := none
  deriving DecidableEq, Repr

structure H5File where
  data : Option H5DataGroup
  mode : Option String := none
  hostname : Option String := none
  deriving DecidableEq, Repr

/-- `BaseReader.samples_per_buffer = 10_000`. -/
def samples_per_buffer : Nat := 10000

/-- `BaseReader.samplerate_sps_default = 100_000`. -/
def samplerate_sps_default : Nat := 100000

/-- `BaseReader.max_elements = 40 * self.samplerate_sps`, assigned in
`__init__` while `samplerate_sps` still holds the default and never reassigned,
hence a constant 4,000,000. -/
def max_elements : Nat := 40 * samplerate_sps_default

/-- `BaseReader.mode_dtype_dict`. -/
def mode_dtype_dict : List (String × List String) :=
  [("harvester", ["ivsample", "ivcurve", "isc_voc"]), ("emulator", ["ivsample"])]

/-- `BaseReader.get_mode`: the `mode` attribute if present, else `""`. -/
def get_mode (f : H5File) : String :=
  match f.mode with
  | some m => m
  | none => ""

/-- `BaseReader.get_hostname`: the `hostname` attribute if present, else `"unknown"`. -/
def get_hostname (f : H5File) : String :=
  match f.hostname with
  | some h => h
  | none => "unknown"

/-- `BaseReader.get_window_samples`: the data-group `window_samples` attribute if
present, else `0`. -/
def H5DataGroup.get_window_samples (d : H5DataGroup) : Nat :=
  match d.window_samples with
  | some w => w
  | none => 0

/-- `BaseReader.get_datatype`: the data-group `datatype` attribute if present,
else `""`. -/
def H5DataGroup.get_datatype (d : H5DataGroup) : String :=
  match d.datatype with
  | some dt => dt
  | none => ""

/-- `BaseReader.get_config`: the parsed data-group `config` attribute if present,
else the empty mapping. -/
def H5DataGroup.get_config (d : H5DataGroup) : List (String × String) :=
  match d.config with
  | some c => c
  | none => []

/-- `BaseReader.is_valid`: runs the hard criteria in order (missing `data` group,
missing/unsupported `mode`, missing `window_samples`/`datatype` attributes,
missing per-dataset `gain`/`offset`, unsupported mode/datatype pairing, ivcurve
with window < 1) and returns `false` on the first hit; the soft criteria only
log warnings and never change the result, so they do not appear here. -/
def is_valid (f : H5File) : Bool :=
  match f.data with
  | none => false
  | some d =>
    match f.mode with
    | none => false
    | some m =>
      if (mode_dtype_dict.lookup m).isNone then false
      else if d.window_samples.isNone then false
      else if d.datatype.isNone then false
      else if d.time.gain.isNone || d.time.offset.isNone then false
      else if d.current.gain.isNone || d.current.offset.isNone then false
      else if d.voltage.gain.isNone || d.voltage.offset.isNone then false
      else if !((mode_dtype_dict.lookup m).getD []).contains d.get_datatype then false
      else if d.get_datatype == "ivcurve" && d.get_window_samples < 1 then false
      else true

/-- Python `int(x)` (truncation toward zero; on an exact rational this is
truncating division of numerator by denominator). -/
def pyInt (x : ℚ) : ℤ :=
  x.num.tdiv x.den

/-- `_refresh_file_stats`: with at least two time samples the sample interval is
`int(time[1] - time[0])` and `samplerate_sps = max(int(10**9 // interval), 1)`
(Python `//` is floor division); otherwise the default rate is kept.  An
interval of zero raises `ZeroDivisionError` — callers guard against it. -/
def samplerate_of (time : List ℚ) : Nat :=
  if 1 < time.length then
    (max (Int.fdiv (10 ^ 9) (pyInt (time.getD 1 0 - time.getD 0 0))) 1).toNat
  else samplerate_sps_default

/-- The state of a successfully opened `BaseReader`: the file, its resolved
`data` group (`__init__` dereferences `h5file["data"]` and the three datasets),
the calibration series built from the per-dataset attributes, and the
sample rate derived by `_refresh_file_stats`. -/
structure Reader where
  file : H5File
  dgrp : H5DataGroup
  cal : CalibrationSeries
  samplerate_sps : Nat
  deriving DecidableEq, Repr

/-- `self.sample_interval_s = 1.0 / self.samplerate_sps`. -/
def Reader.sample_interval_s (r : Reader) : ℚ :=
  1 / (r.samplerate_sps : ℚ)

/-- `BaseReader.__init__` for a fresh reader: fail with `FileNotFoundError` when
the path does not exist; otherwise open the file, call `is_valid` (whose result
is only logged — a faulty file does *not* abort opening), dereference
`h5file["data"]` (a missing group raises `KeyError`), read the six per-dataset
`gain`/`offset` attributes into a `CalibrationSeries` (a missing attribute
raises `KeyError`; pydantic validates the gains positive), and run
`_refresh_file_stats` (equal first two time values raise `ZeroDivisionError`). -/
def openReader (path_exists : Bool) (f : H5File) : Except ShpError Reader :=
  if !path_exists then .error .fileNotFound
  else
    match f.data with
    | none => .error .keyError
    | some d =>
      match d.current.gain, d.current.offset, d.voltage.gain, d.voltage.offset,
          d.time.gain, d.time.offset with
      | some cg, some co, some vg, some vo, some tg, some t_off =>
        if 0 < cg ∧ 0 < vg ∧ 0 < tg then
          if 1 < d.time.data.length ∧ pyInt (d.time.data.getD 1 0 - d.time.data.getD 0 0) = 0 then
            .error .zeroDivision
          else
            .ok ⟨f, d, ⟨⟨vg, vo⟩, ⟨cg, co⟩, ⟨tg, t_off⟩⟩, samplerate_of d.time.data⟩
        else .error .validationError
      | _, _, _, _, _, _ => .error .keyError

/-- Python list/array slice `l[a:b]` (clamped at the list length). -/
def listSlice (l : List ℚ) (a b : Nat) : List ℚ :=
  (l.drop a).take (b - a)

/-- Python `range(a, b)`. -/
def pyRange (a b : Nat) : List Nat :=
  (List.range (b - a)).map (· + a)

/-- `BaseReader.read_buffers(start_n, end_n, is_raw)`: the default `end_n` is
`len(time) // samples_per_buffer`; buffer `i` is the slice
`[i*samples_per_buffer, (i+1)*samples_per_buffer)` of the three datasets,
SI-converted unless `is_raw`. -/
def read_buffers (r : Reader) (start_n : Nat) (end_n : Option Nat) (is_raw : Bool) :
    List (List ℚ × List ℚ × List ℚ) :=
  let endN :=
    match end_n with
    | some e => e
    | none => r.dgrp.time.data.length / samples_per_buffer
  (pyRange start_n endN).map fun i =>
    let idx_start := i * samples_per_buffer
    let idx_end := idx_start + samples_per_buffer
    if is_raw then
      (listSlice r.dgrp.time.data idx_start idx_end,
        listSlice r.dgrp.voltage.data idx_start idx_end,
        listSlice r.dgrp.current.data idx_start idx_end)
    else
      ((listSlice r.dgrp.time.data idx_start idx_end).map r.cal.time.raw_to_si,
        (listSlice r.dgrp.voltage.data idx_start idx_end).map r.cal.voltage.raw_to_si,
        (listSlice r.dgrp.current.data idx_start idx_end).map r.cal.current.raw_to_si)

/-! ## Chunked analytics (`BaseReader.energy`, `_dset_statistics`, timediffs) -/

/-- Python `range(0, n, step)` for `step ≥ 1`: the chunk starting offsets used by
all chunked passes of the reader. -/
def chunkStarts (n step : Nat) : List Nat :=
  (List.range ((n + step - 1) / step)).map (· * step)

/-- Models the inner `_calc_energy(idx_start)` of `BaseReader.energy`:
SI-convert the chunk `[idx_start, min(idx_start + maxE, n_time))` of both
channels, multiply pointwise, sum, and scale by the sample interval. -/
def _calc_energy (cal_v cal_c : CalibrationPair) (voltage current : List ℚ)
    (n_time maxE : Nat) (dt : ℚ) (idx_start : Nat) : ℚ :=
  let idx_stop := min (idx_start + maxE) n_time
  let vol_v := (listSlice voltage idx_start idx_stop).map cal_v.raw_to_si
  let cur_a := (listSlice current idx_start idx_stop).map cal_c.raw_to_si
  (List.zipWith (· * ·) vol_v cur_a).sum * dt

/-- Models `BaseReader.energy` with explicit chunk size: walk
`range(0, len(time), maxE)` and sum the per-chunk energies. -/
def energy_chunked (cal_v cal_c : CalibrationPair) (voltage current : List ℚ)
    (n_time maxE : Nat) (dt : ℚ) : ℚ :=
  ((chunkStarts n_time maxE).map
    (_calc_energy cal_v cal_c voltage current n_time maxE dt)).sum

/-- Models `BaseReader.energy` on an open reader (chunk size is the constant
`max_elements`). -/
def Reader.energy (r : Reader) : ℚ :=
  energy_chunked r.cal.voltage r.cal.current r.dgrp.voltage.data
    r.dgrp.current.data r.dgrp.time.data.length max_elements r.sample_interval_s

/-- Python strided slice `l[start : stop : step]` for `step ≥ 1` (stop clamped at
the sequence length): the elements at `start, start + step, ...` below
`min(stop, len(l))`. -/
def strideSlice (l : List ℚ) (start stop step : Nat) : List ℚ :=
  let stop' := min stop l.length
  (List.range ((stop' - start + step - 1) / step)).map fun k => l.getD (start + k * step) 0

/-- Models `np.unique` on a 1-D array: sorted distinct values. -/
def npUnique (l : List ℚ) : List ℚ :=
  (l.insertionSort (· ≤ ·)).dedup

/-- Python `round(x)` (round half to even).  `Int.fdiv x.num x.den` is the
floor of the exact rational. -/
def pyRound (x : ℚ) : ℤ :=
  let f := Int.fdiv x.num x.den
  if x - f < 1 / 2 then f
  else if 1 / 2 < x - f then f + 1
  else if f % 2 = 0 then f else f + 1

/-- Python `round(x, 6)`. -/
def roundTo6 (x : ℚ) : ℚ :=
  (pyRound (x * 10 ^ 6) : ℚ) / 10 ^ 6

/-- Models the inner `calc_timediffs(idx_start)` of `BaseReader.data_timediffs`:
sample the first raw time value of every buffer in the chunk (stride
`samples_per_buffer`), form the consecutive differences
`ds_time[1:] - ds_time[0:-1]` and keep the distinct values. -/
def calc_timediffs (time : List ℚ) (maxE idx_start : Nat) : List ℚ :=
  let ds_time := strideSlice time idx_start (idx_start + maxE) samples_per_buffer
  npUnique (List.zipWith (· - ·) (ds_time.drop 1) ds_time.dropLast)

/-- Models `BaseReader.data_timediffs` with explicit chunk size: chunk the time
dataset, collect the per-chunk buffer-start differences, convert each to seconds
per buffer (`raw_to_si`, division by `samples_per_buffer`, rounding to 6 digits)
and keep the distinct results (the Python set comprehension). -/
def data_timediffs (cal_t : CalibrationPair) (time : List ℚ) (maxE : Nat) : List ℚ :=
  let diffs_ll := (chunkStarts time.length maxE).map (calc_timediffs time maxE)
  (diffs_ll.flatten.map fun j =>
    roundTo6 (cal_t.raw_to_si j / (samples_per_buffer : ℚ))).dedup

/-- Models `BaseReader.check_timediffs`: more than one distinct delta is logged
as a warning (never raised); the result is `len(diffs) <= 1`. -/
def check_timediffs (cal_t : CalibrationPair) (time : List ℚ) (maxE : Nat) : Bool :=
  decide ((data_timediffs cal_t time maxE).length ≤ 1)

/-- Models `np.mean` of a 1-D array. -/
noncomputable def npMean (l : List ℝ) : ℝ :=
  l.sum / l.length

/-- Models `np.min` of a 1-D array (the source never applies it to an empty
chunk; `0` stands in for numpy's error). -/
noncomputable def npMin : List ℝ → ℝ
  | [] => 0
  | x :: xs => xs.foldl min x

/-- Models `np.max` of a 1-D array. -/
noncomputable def npMax : List ℝ → ℝ
  | [] => 0
  | x :: xs => xs.foldl max x

/-- Models `np.std` of a 1-D array: the square root of the mean squared
deviation from the mean. -/
noncomputable def npStd (l : List ℝ) : ℝ :=
  Real.sqrt (npMean (l.map fun x => (x - npMean l) ^ 2))

/-- Models the inner `_calc_statistics(data)` of `BaseReader._dset_statistics`,
returning `[np.mean(data), np.min(data), np.max(data), np.std(data)]`. -/
noncomputable def _calc_statistics (data : List ℝ) : List ℝ :=
  [npMean data, npMin data, npMax data, npStd data]

/-- Result record of `BaseReader._dset_statistics` (the returned dict). -/
structure DsetStats where
  mean : ℝ
  min : ℝ
  max : ℝ
  std : ℝ
  si_converted : Bool

/-- Models `BaseReader._dset_statistics` with explicit chunk size: choose the
calibration (the argument if given, else the dataset's `gain`/`offset`
attributes, else gain 1 with `si_converted = False`), SI-convert chunk by chunk,
compute `[mean, min, max, std]` per chunk, and combine them as the mean of chunk
means, min of chunk mins, max of chunk maxs and the *mean of chunk stds*;
an empty dataset yields `{}` (here `none`). -/
noncomputable def _dset_statistics (dset : H5Dataset) (cal_arg : Option CalibrationPair)
    (maxE : Nat) : Option DsetStats :=
  let chosen : CalibrationPair × Bool :=
    match cal_arg with
    | some c => (c, true)
    | none =>
      match dset.gain, dset.offset with
      | some g, some o => (⟨g, o⟩, true)
      | _, _ => (⟨1, 0⟩, false)
  let stats_list := (chunkStarts dset.data.length maxE).map fun i =>
    _calc_statistics ((listSlice dset.data i (i + maxE)).map fun x =>
      ((chosen.1.raw_to_si x : ℚ) : ℝ))
  if stats_list.length < 1 then none
  else
    some ⟨npMean (stats_list.map fun l => l.getD 0 0),
      npMin (stats_list.map fun l => l.getD 1 0),
      npMax (stats_list.map fun l => l.getD 2 0),
      npMean (stats_list.map fun l => l.getD 3 0),
      chosen.2⟩

/-! ## Downsample command (`shepherd_data/cli.py`) -/

/-- Models `file.with_suffix(f".downsampled_x{round(_factor)}.h5")` applied to
`<base>.h5`. -/
def ds_file_name (base : String) (factor : ℚ) : String :=
  base ++ ".downsampled_x" ++ toString (pyRound factor) ++ ".h5"

/-- Models the directory contents seen by the CLI: an association list from file
name to content.  The content type is abstract: the Writer that fills a fresh
derived file lives outside the verified core and never runs on the paths the
claim is about. -/
abbrev FileSys (C : Type) : Type :=
  List (String × C)

/-- Models the `for _factor in ds_list` body of the `downsample` CLI command for
one source file: when the resulting sample count `len(time)/factor` would drop
below 1000, warn and `break`; when the derived file already exists, `continue`;
otherwise create the derived file (`newFile factor`). -/
def downsampleLoop {C : Type} (newFile : ℚ → C) (timeLen : Nat) (base : String) :
    FileSys C → List ℚ → FileSys C
  | fs, [] => fs
  | fs, factor :: rest =>
    if (timeLen : ℚ) / factor < 1000 then fs
    else if (fs.lookup (ds_file_name base factor)).isSome then
      downsampleLoop newFile timeLen base fs rest
    else
      downsampleLoop newFile timeLen base
        (fs ++ [(ds_file_name base factor, newFile factor)]) rest

/-- Models the factor-list selection of the `downsample` CLI command: a requested
factor `≥ 1` is used alone, anything else selects the default ladder. -/
def ds_list_of (ds_factor : Option ℚ) : List ℚ :=
  match ds_factor with
  | some f =>
    if 1 ≤ f then [f] else [5, 25, 100, 500, 2500, 10000, 50000, 250000, 1000000]
  | none => [5, 25, 100, 500, 2500, 10000, 50000, 250000, 1000000]

/-- Models the `downsample` CLI command for one source file. -/
def downsampleCmd {C : Type} (newFile : ℚ → C) (timeLen : Nat) (base : String)
    (ds_factor : Option ℚ) (fs : FileSys C) : FileSys C :=
  downsampleLoop newFile timeLen base fs (ds_list_of ds_factor)

/-! ## Concrete stores used by witnesses and counterexamples -/

/-- Well-formed data group except that the surrounding file has no `mode`
attribute (see `c4NoModeFile`). -/
def c4NoModeGroup : H5DataGroup :=
  ⟨⟨[0, 2], some (1 / 10 ^ 9), some 0⟩, ⟨[7, 7], some 1, some 0⟩,
    ⟨[3, 3], some 1, some 0⟩, some "ivsample", some 0, none⟩

/-- A store violating the hard invariant "mode attribute present". -/
def c4NoModeFile : H5File :=
  ⟨some c4NoModeGroup, none, some "sheep0"⟩

/-- Data group whose `time` dataset misses its `gain` attribute. -/
def c4MissingGainGroup : H5DataGroup :=
  ⟨⟨[0, 2], none, some 0⟩, ⟨[7, 7], some 1, some 0⟩,
    ⟨[3, 3], some 1, some 0⟩, some "ivsample", some 0, none⟩

/-- A store violating the hard invariant "per-channel calibration attributes
present" (otherwise well-formed). -/
def c4MissingGainFile : H5File :=
  ⟨some c4MissingGainGroup, some "harvester", some "sheep0"⟩

/-- Open reader on a store with none of the four optional attributes
(`mode`, `hostname`, `window_samples`, `config`). -/
def c10Reader : Reader :=
  ⟨⟨some ⟨⟨[0, 2], some (1 / 10 ^ 9), some 0⟩, ⟨[7, 7], some 1, some 0⟩,
      ⟨[3, 3], some 1, some 0⟩, some "ivsample", none, none⟩, none, none⟩,
    ⟨⟨[0, 2], some (1 / 10 ^ 9), some 0⟩, ⟨[7, 7], some 1, some 0⟩,
      ⟨[3, 3], some 1, some 0⟩, some "ivsample", none, none⟩,
    ⟨⟨1, 0⟩, ⟨1, 0⟩, ⟨1 / 10 ^ 9, 0⟩⟩, 100000⟩

/-- Open reader on a one-sample store (time length 1 is not a multiple of the
buffer size). -/
def c9Reader : Reader :=
  ⟨⟨some ⟨⟨[0], some (1 / 10 ^ 9), some 0⟩, ⟨[7], some 1, some 0⟩,
      ⟨[3], some 1, some 0⟩, some "ivsample", some 0, none⟩, some "harvester", none⟩,
    ⟨⟨[0], some (1 / 10 ^ 9), some 0⟩, ⟨[7], some 1, some 0⟩,
      ⟨[3], some 1, some 0⟩, some "ivsample", some 0, none⟩,
    ⟨⟨1, 0⟩, ⟨1, 0⟩, ⟨1 / 10 ^ 9, 0⟩⟩, 100000⟩

/-- Open reader on a constant store: SI voltage 2.0 V (raw 2, gain 1), SI
current 0.5 A (raw 1, gain 1/2), one million samples at 100,000 sps; the time
dataset holds one million raw timestamps 10,000 ns apart (a 10-second recording
at 100 ksps). -/
def energyDemoReader : Reader :=
  ⟨⟨some ⟨⟨(0 : ℚ) :: (List.range 999999).map (fun k : ℕ => ((k : ℚ) + 1) * 10000),
        some (1 / 10 ^ 9), some 0⟩,
      ⟨List.replicate 1000000 2, some 1, some 0⟩,
      ⟨List.replicate 1000000 1, some (1 / 2), some 0⟩,
      some "ivsample", some 0, none⟩, some "harvester", none⟩,
    ⟨⟨(0 : ℚ) :: (List.range 999999).map (fun k : ℕ => ((k : ℚ) + 1) * 10000),
        some (1 / 10 ^ 9), some 0⟩,
      ⟨List.replicate 1000000 2, some 1, some 0⟩,
      ⟨List.replicate 1000000 1, some (1 / 2), some 0⟩,
      some "ivsample", some 0, none⟩,
    ⟨⟨1, 0⟩, ⟨1 / 2, 0⟩, ⟨1 / 10 ^ 9, 0⟩⟩, 100000⟩

/-- Dataset of 8,000,000 samples (80 s at 100 ksps): the first half raw 0, the
second half raw 1, with unit calibration attributes.  Its two
`max_elements`-sized chunks are the two constant halves. -/
def c6Dset : H5Dataset :=
  ⟨List.replicate 4000000 0 ++ List.replicate 4000000 1, some 1, some 0⟩

/-- Time dataset of an exactly one-buffer store (10,000 samples at 100 ksps). -/
def c7OneBufTime : List ℚ :=
  (List.range 10000).map fun k : ℕ => (k : ℚ) * 10000

/-! ## Helper lemmas -/

theorem pyRange_zero (b : Nat) : pyRange 0 b = List.range b := by
  simp [pyRange]

theorem listSlice_length (l : List ℚ) (a b : Nat) :
    (listSlice l a b).length = min (b - a) (l.length - a) := by
  simp [listSlice]

theorem flatten_slices (l : List ℚ) (B m : Nat) :
    ((List.range m).map fun i => listSlice l (i * B) (i * B + B)).flatten
      = l.take (m * B) := by
  induction m with
  | zero => simp
  | succ m ih =>
    rw [List.range_succ, List.map_append, List.flatten_append, ih]
    simp only [List.map_cons, List.map_nil, List.flatten_cons, List.flatten_nil,
      List.append_nil, listSlice, Nat.add_sub_cancel_left]
    rw [Nat.succ_mul, List.take_add]

theorem map_flatten_lists {α β : Type} (f : α → β) (L : List (List α)) :
    (L.map (List.map f)).flatten = (L.flatten).map f := by
  induction L with
  | nil => rfl
  | cons x xs ih =>
    simp only [List.map_cons, List.flatten_cons, List.map_append, ih]

/-- Unfolds `read_buffers` with default arguments into its buffer list. -/
theorem read_buffers_default (r : Reader) :
    read_buffers r 0 none false
      = (List.range (r.dgrp.time.data.length / samples_per_buffer)).map fun i =>
          ((listSlice r.dgrp.time.data (i * samples_per_buffer)
              (i * samples_per_buffer + samples_per_buffer)).map r.cal.time.raw_to_si,
            (listSlice r.dgrp.voltage.data (i * samples_per_buffer)
              (i * samples_per_buffer + samples_per_buffer)).map r.cal.voltage.raw_to_si,
            (listSlice r.dgrp.current.data (i * samples_per_buffer)
              (i * samples_per_buffer + samples_per_buffer)).map r.cal.current.raw_to_si) := by
  rw [← pyRange_zero (r.dgrp.time.data.length / samples_per_buffer)]
  rfl

/-! ## Claim theorems -/

/-- **C1**: for every `CalibrationPair` with gain `g > 0` and offset `o` and every
input `x`, `raw_to_si x = max (x*g + o) 0` and `si_to_raw x = max ((x - o)/g) 0`,
and neither conversion ever returns a negative value. -/
theorem c1_calibration_conversion (c : CalibrationPair) (x : ℚ) (_hg : 0 < c.gain) :
    c.raw_to_si x = max (x * c.gain + c.offset) 0 ∧
    c.si_to_raw x = max ((x - c.offset) / c.gain) 0 ∧
    0 ≤ c.raw_to_si x ∧ 0 ≤ c.si_to_raw x := by
  refine ⟨rfl, rfl, ?_, ?_⟩
  · exact le_max_right _ _
  · exact le_max_right _ _

/-- Witness for C1 at gain 2, offset -3, input 5. -/
theorem c1_calibration_conversion_witness :
    0 < (2 : ℚ) ∧
    (CalibrationPair.raw_to_si ⟨2, -3⟩ 5 = max (5 * 2 + (-3)) 0 ∧
      CalibrationPair.si_to_raw ⟨2, -3⟩ 5 = max ((5 - (-3)) / 2) 0 ∧
      0 ≤ CalibrationPair.raw_to_si ⟨2, -3⟩ 5 ∧
      0 ≤ CalibrationPair.si_to_raw ⟨2, -3⟩ 5) :=
  ⟨by norm_num, c1_calibration_conversion ⟨2, -3⟩ 5 (by norm_num)⟩

/-- **C2, counterexample**: with gain 1 and offset 1, the raw value -1 satisfies
`raw ≥ -offset/gain`, yet `si_to_raw (raw_to_si raw) = 0 ≠ raw`: the clamping in
`raw_to_si` already floors `raw*gain + offset = 0` and the inverse cannot recover
a negative raw value.  So the claimed roundtrip fails as stated. -/
theorem c2_roundtrip_cex :
    -(CalibrationPair.offset ⟨1, 1⟩) / CalibrationPair.gain ⟨1, 1⟩ ≤ (-1 : ℚ) ∧
    CalibrationPair.si_to_raw ⟨1, 1⟩ (CalibrationPair.raw_to_si ⟨1, 1⟩ (-1)) = 0 ∧
    (0 : ℚ) ≠ -1 := by
  refine ⟨by norm_num, ?_, by norm_num⟩
  simp [CalibrationPair.raw_to_si, CalibrationPair.si_to_raw]

/-- **C2, amended**: for every `CalibrationPair` with gain `g > 0`, the roundtrip
`si_to_raw (raw_to_si raw) = raw` holds for every raw value with `raw ≥ -o/g`
*and* `raw ≥ 0` (equivalently `raw ≥ max (-o/g) 0`); and for every raw value with
`raw*g + o < 0`, `raw_to_si raw = 0`. -/
theorem c2_roundtrip (c : CalibrationPair) (hg : 0 < c.gain) (x : ℚ) :
    (-c.offset / c.gain ≤ x → 0 ≤ x → c.si_to_raw (c.raw_to_si x) = x) ∧
    (x * c.gain + c.offset < 0 → c.raw_to_si x = 0) := by
  constructor
  · intro hge hx
    have hg' : c.gain ≠ 0 := ne_of_gt hg
    have hsi : 0 ≤ x * c.gain + c.offset := by
      have : -c.offset ≤ x * c.gain := by
        have := (div_le_iff₀ hg).mp hge
        linarith
      linarith
    have h1 : c.raw_to_si x = x * c.gain + c.offset := by
      simpa [CalibrationPair.raw_to_si] using max_eq_left hsi
    have h2 : (x * c.gain + c.offset - c.offset) / c.gain = x := by
      field_simp
    have h3 : c.si_to_raw (x * c.gain + c.offset) = max x 0 := by
      simp only [CalibrationPair.si_to_raw]
      rw [h2]
    rw [h1, h3]
    exact max_eq_left hx
  · intro hneg
    simpa [CalibrationPair.raw_to_si] using max_eq_right (le_of_lt hneg)

/-- Witness for the amended C2 at gain 2, offset -4, raw 7 (and the clamping part
at raw 1, where `1*2 - 4 < 0`). -/
theorem c2_roundtrip_witness :
    (0 < (2 : ℚ) ∧
      (-(-4 : ℚ) / 2 ≤ 7 ∧ (0 : ℚ) ≤ 7 ∧
        CalibrationPair.si_to_raw ⟨2, -4⟩ (CalibrationPair.raw_to_si ⟨2, -4⟩ 7) = 7)) ∧
    ((1 : ℚ) * 2 + (-4) < 0 ∧ CalibrationPair.raw_to_si ⟨2, -4⟩ 1 = 0) := by
  have h7 := (c2_roundtrip ⟨2, -4⟩ (by norm_num) 7).1
  have h1 := (c2_roundtrip ⟨2, -4⟩ (by norm_num) 1).2
  exact ⟨⟨by norm_num, by norm_num, by norm_num, h7 (by norm_num) (by norm_num)⟩,
    ⟨by norm_num, h1 (by norm_num)⟩⟩

/-- **C3**: constructing a `CalibrationPair` with `gain ≤ 0` fails immediately
with a configuration error (pydantic `ValidationError` on the `PositiveFloat`
field), and every successfully constructed pair has positive gain. -/
theorem c3_positive_gain (g o : ℚ) :
    (g ≤ 0 → CalibrationPair.construct g o = .error .validationError) ∧
    (∀ p : CalibrationPair, CalibrationPair.construct g o = .ok p → 0 < p.gain) := by
  constructor
  · intro hle
    simp [CalibrationPair.construct, not_lt.mpr hle]
  · intro p hp
    by_cases h : 0 < g
    · simp only [CalibrationPair.construct, if_pos h] at hp
      cases hp
      exact h
    · simp [CalibrationPair.construct, if_neg h] at hp

/-- Witness for C3 at gain 0 / gain -2 (rejected) and gain 3 (accepted). -/
theorem c3_positive_gain_witness :
    ((0 : ℚ) ≤ 0 ∧ CalibrationPair.construct 0 5 = .error .validationError) ∧
    (CalibrationPair.construct 3 5 = .ok ⟨3, 5⟩ ∧ (0 : ℚ) < CalibrationPair.gain ⟨3, 5⟩) :=
  have hok : CalibrationPair.construct 3 5 = .ok ⟨3, 5⟩ := by
    simp [CalibrationPair.construct]
  ⟨⟨le_refl 0, (c3_positive_gain 0 5).1 (le_refl 0)⟩,
    ⟨hok, (c3_positive_gain 3 5).2 ⟨3, 5⟩ hok⟩⟩



/-- **C10**: on an open reader the attribute accessors are total and fall back to
defaults instead of raising: missing `mode` gives `""`, missing `hostname` gives
`"unknown"`, missing `window_samples` gives `0`, and missing `config` gives the
empty mapping. -/
theorem c10_getter_defaults (r : Reader) :
    (r.file.mode = none → get_mode r.file = "") ∧
    (r.file.hostname = none → get_hostname r.file = "unknown") ∧
    (r.dgrp.window_samples = none → r.dgrp.get_window_samples = 0) ∧
    (r.dgrp.config = none → r.dgrp.get_config = []) := by
  refine ⟨fun h => ?_, fun h => ?_, fun h => ?_, fun h => ?_⟩ <;>
    simp [get_mode, get_hostname, H5DataGroup.get_window_samples,
      H5DataGroup.get_config, h]

/-- Witness for C10 on a reader whose store has none of the four attributes. -/
theorem c10_getter_defaults_witness :
    (c10Reader.file.mode = none ∧ get_mode c10Reader.file = "") ∧
    (c10Reader.file.hostname = none ∧ get_hostname c10Reader.file = "unknown") ∧
    (c10Reader.dgrp.window_samples = none ∧ c10Reader.dgrp.get_window_samples = 0) ∧
    (c10Reader.dgrp.config = none ∧ c10Reader.dgrp.get_config = []) :=
  ⟨⟨rfl, (c10_getter_defaults c10Reader).1 rfl⟩,
    ⟨rfl, (c10_getter_defaults c10Reader).2.1 rfl⟩,
    ⟨rfl, (c10_getter_defaults c10Reader).2.2.1 rfl⟩,
    ⟨rfl, (c10_getter_defaults c10Reader).2.2.2 rfl⟩⟩

/-- **C9**: on a store whose datasets share a length `N` that is not a multiple
of `samples_per_buffer`, `read_buffers` with default indices yields exactly
`N / 10000` buffers, every yielded channel slice has exactly 10,000 samples (no
partial buffer), and the concatenation of the yielded time slices is exactly the
SI conversion of the first `(N / 10000) * 10000` samples — the trailing
`N mod 10000` samples are never yielded. -/
theorem c9_read_buffers_whole_buffers (r : Reader)
    (hv : r.dgrp.voltage.data.length = r.dgrp.time.data.length)
    (hc : r.dgrp.current.data.length = r.dgrp.time.data.length)
    (_hmod : r.dgrp.time.data.length % samples_per_buffer ≠ 0) :
    (read_buffers r 0 none false).length
      = r.dgrp.time.data.length / samples_per_buffer ∧
    (∀ b ∈ read_buffers r 0 none false,
      b.1.length = samples_per_buffer ∧ b.2.1.length = samples_per_buffer ∧
        b.2.2.length = samples_per_buffer) ∧
    ((read_buffers r 0 none false).map Prod.fst).flatten
      = (r.dgrp.time.data.take
          (r.dgrp.time.data.length / samples_per_buffer * samples_per_buffer)).map
        r.cal.time.raw_to_si := by
  have hrb := read_buffers_default r
  refine ⟨?_, ?_, ?_⟩
  · rw [hrb]
    simp
  · intro b hb
    rw [hrb] at hb
    simp only [List.mem_map, List.mem_range] at hb
    obtain ⟨i, hi, rfl⟩ := hb
    have hle : i * samples_per_buffer + samples_per_buffer ≤ r.dgrp.time.data.length := by
      have h1 : i + 1 ≤ r.dgrp.time.data.length / samples_per_buffer := hi
      have h2 : (i + 1) * samples_per_buffer
          ≤ r.dgrp.time.data.length / samples_per_buffer * samples_per_buffer :=
        Nat.mul_le_mul_right _ h1
      have h3 := Nat.div_mul_le_self r.dgrp.time.data.length samples_per_buffer
      calc i * samples_per_buffer + samples_per_buffer = (i + 1) * samples_per_buffer := by
            rw [Nat.succ_mul]
        _ ≤ _ := le_trans h2 h3
    have hmin : ∀ L : List ℚ, L.length = r.dgrp.time.data.length →
        (listSlice L (i * samples_per_buffer)
          (i * samples_per_buffer + samples_per_buffer)).length = samples_per_buffer := by
      intro L hL
      rw [listSlice_length, hL, Nat.add_sub_cancel_left]
      exact Nat.min_eq_left (Nat.le_sub_of_add_le (by omega))
    exact ⟨by simpa using hmin _ rfl, by simpa using hmin _ hv, by simpa using hmin _ hc⟩
  · rw [hrb, List.map_map]
    have : (Prod.fst ∘ fun i =>
        ((listSlice r.dgrp.time.data (i * samples_per_buffer)
            (i * samples_per_buffer + samples_per_buffer)).map r.cal.time.raw_to_si,
          (listSlice r.dgrp.voltage.data (i * samples_per_buffer)
            (i * samples_per_buffer + samples_per_buffer)).map r.cal.voltage.raw_to_si,
          (listSlice r.dgrp.current.data (i * samples_per_buffer)
            (i * samples_per_buffer + samples_per_buffer)).map r.cal.current.raw_to_si))
        = (List.map r.cal.time.raw_to_si) ∘ fun i =>
            listSlice r.dgrp.time.data (i * samples_per_buffer)
              (i * samples_per_buffer + samples_per_buffer) := rfl
    rw [this, ← List.map_map, map_flatten_lists, flatten_slices]

/-- Witness for C9 on a one-sample store (length 1, not buffer-aligned: zero
buffers are yielded and nothing of the trailing sample appears). -/
theorem c9_read_buffers_whole_buffers_witness :
    (c9Reader.dgrp.voltage.data.length = c9Reader.dgrp.time.data.length ∧
      c9Reader.dgrp.current.data.length = c9Reader.dgrp.time.data.length ∧
      c9Reader.dgrp.time.data.length % samples_per_buffer ≠ 0) ∧
    ((read_buffers c9Reader 0 none false).length
        = c9Reader.dgrp.time.data.length / samples_per_buffer ∧
      (∀ b ∈ read_buffers c9Reader 0 none false,
        b.1.length = samples_per_buffer ∧ b.2.1.length = samples_per_buffer ∧
          b.2.2.length = samples_per_buffer) ∧
      ((read_buffers c9Reader 0 none false).map Prod.fst).flatten
        = (c9Reader.dgrp.time.data.take
            (c9Reader.dgrp.time.data.length / samples_per_buffer
              * samples_per_buffer)).map c9Reader.cal.time.raw_to_si) :=
  ⟨⟨rfl, rfl, by decide⟩,
    c9_read_buffers_whole_buffers c9Reader rfl rfl (by decide)⟩


/-- Helper: `openReader` succeeds on an existing file whose `data` group and six
calibration attributes are present, with positive gains and a usable first time
interval. -/
theorem openReader_ok (f : H5File) (d : H5DataGroup)
    (cg co vg vo tg t_off : ℚ)
    (hd : f.data = some d)
    (hcg : d.current.gain = some cg) (hco : d.current.offset = some co)
    (hvg : d.voltage.gain = some vg) (hvo : d.voltage.offset = some vo)
    (htg : d.time.gain = some tg) (hto : d.time.offset = some t_off)
    (hpos : 0 < cg ∧ 0 < vg ∧ 0 < tg)
    (htime : ¬(1 < d.time.data.length ∧
      pyInt (d.time.data.getD 1 0 - d.time.data.getD 0 0) = 0)) :
    openReader true f
      = .ok ⟨f, d, ⟨⟨vg, vo⟩, ⟨cg, co⟩, ⟨tg, t_off⟩⟩, samplerate_of d.time.data⟩ := by
  simp only [openReader, Bool.not_true, Bool.false_eq_true, if_false, hd, hcg, hco,
    hvg, hvo, htg, hto]
  rw [if_pos hpos, if_neg htime]

/-- Helper: `is_valid` is false when the `mode` attribute is missing, the mode
string is unsupported, or the datatype is not allowed for the mode. -/
theorem is_valid_false_of_mode_viol (f : H5File) (d : H5DataGroup)
    (hd : f.data = some d)
    (hviol : f.mode = none ∨ ∃ m, f.mode = some m ∧
      (mode_dtype_dict.lookup m = none ∨
        ∃ dts, mode_dtype_dict.lookup m = some dts ∧
          d.get_datatype ∉ dts)) :
    is_valid f = false := by
  rcases hviol with hm | ⟨m, hm, hcase⟩
  · simp [is_valid, hd, hm]
  · rcases hcase with hnone | ⟨dts, hdts, hmem⟩
    · simp [is_valid, hd, hm, hnone]
    · simp [is_valid, hd, hm, hdts, hmem]

/-- **C4, amended**: for an existing store violating the hard invariants
"missing `mode` attribute" or "unsupported mode/datatype pairing" (and whose
per-channel calibration attributes are present with positive gains and whose
first two time values do not coincide), `Open` succeeds, `IsValid` returns
false, and `ReadBuffers` still yields the store's
`len(time) // samples_per_buffer` buffers.  However — contrary to the claim as
stated — a store missing a per-channel `gain`/`offset` calibration attribute
makes `Open` itself fail with a `KeyError` while building the
`CalibrationSeries`, before any reading is possible. -/
theorem c4_open_tolerates_hard_violations :
    (∀ (f : H5File) (d : H5DataGroup) (cg co vg vo tg t_off : ℚ),
      f.data = some d →
      d.current.gain = some cg → d.current.offset = some co →
      d.voltage.gain = some vg → d.voltage.offset = some vo →
      d.time.gain = some tg → d.time.offset = some t_off →
      0 < cg ∧ 0 < vg ∧ 0 < tg →
      ¬(1 < d.time.data.length ∧
        pyInt (d.time.data.getD 1 0 - d.time.data.getD 0 0) = 0) →
      (f.mode = none ∨ ∃ m, f.mode = some m ∧
        (mode_dtype_dict.lookup m = none ∨
          ∃ dts, mode_dtype_dict.lookup m = some dts ∧
            d.get_datatype ∉ dts)) →
      ∃ r : Reader, openReader true f = .ok r ∧ is_valid f = false ∧
        (read_buffers r 0 none false).length
          = d.time.data.length / samples_per_buffer) ∧
    (∀ (f : H5File) (d : H5DataGroup), f.data = some d →
      (d.current.gain = none ∨ d.current.offset = none ∨ d.voltage.gain = none ∨
        d.voltage.offset = none ∨ d.time.gain = none ∨ d.time.offset = none) →
      openReader true f = .error .keyError) := by
  constructor
  · intro f d cg co vg vo tg t_off hd hcg hco hvg hvo htg hto hpos htime hviol
    refine ⟨⟨f, d, ⟨⟨vg, vo⟩, ⟨cg, co⟩, ⟨tg, t_off⟩⟩, samplerate_of d.time.data⟩,
      openReader_ok f d cg co vg vo tg t_off hd hcg hco hvg hvo htg hto hpos htime,
      is_valid_false_of_mode_viol f d hd hviol, ?_⟩
    rw [read_buffers_default]
    simp
  · intro f d hd hmiss
    cases h1 : d.current.gain <;> cases h2 : d.current.offset <;>
      cases h3 : d.voltage.gain <;> cases h4 : d.voltage.offset <;>
      cases h5 : d.time.gain <;> cases h6 : d.time.offset <;>
      simp_all [openReader, hd]

/-- **C4, counterexample**: a store whose `time` dataset misses its `gain`
attribute is hard-invalid, yet `Open` does *not* succeed on it: `__init__`
raises `KeyError` when collecting the calibration attributes. -/
theorem c4_open_tolerates_cex :
    c4MissingGainGroup.time.gain = none ∧
    is_valid c4MissingGainFile = false ∧
    openReader true c4MissingGainFile = .error .keyError := by
  exact ⟨rfl, rfl, rfl⟩

/-- Witness for the amended C4 on `c4NoModeFile` (no `mode` attribute). -/
theorem c4_open_tolerates_hard_violations_witness :
    (c4NoModeFile.data = some c4NoModeGroup ∧
      c4NoModeGroup.current.gain = some 1 ∧ c4NoModeGroup.current.offset = some 0 ∧
      c4NoModeGroup.voltage.gain = some 1 ∧ c4NoModeGroup.voltage.offset = some 0 ∧
      c4NoModeGroup.time.gain = some (1 / 10 ^ 9) ∧
      c4NoModeGroup.time.offset = some 0 ∧
      ((0 : ℚ) < 1 ∧ (0 : ℚ) < 1 ∧ (0 : ℚ) < 1 / 10 ^ 9) ∧
      ¬(1 < c4NoModeGroup.time.data.length ∧
        pyInt (c4NoModeGroup.time.data.getD 1 0 - c4NoModeGroup.time.data.getD 0 0)
          = 0) ∧
      c4NoModeFile.mode = none) ∧
    (∃ r : Reader, openReader true c4NoModeFile = .ok r ∧
      is_valid c4NoModeFile = false ∧
      (read_buffers r 0 none false).length
        = c4NoModeGroup.time.data.length / samples_per_buffer) :=
  have htime : ¬(1 < c4NoModeGroup.time.data.length ∧
      pyInt (c4NoModeGroup.time.data.getD 1 0 - c4NoModeGroup.time.data.getD 0 0)
        = 0) := by
    intro h
    have h2 := h.2
    norm_num [c4NoModeGroup, pyInt] at h2
  ⟨⟨rfl, rfl, rfl, rfl, rfl, rfl, rfl, by norm_num, htime, rfl⟩,
    (c4_open_tolerates_hard_violations).1 c4NoModeFile c4NoModeGroup
      1 0 1 0 (1 / 10 ^ 9) 0 rfl rfl rfl rfl rfl rfl rfl (by norm_num) htime
      (Or.inl rfl)⟩


/-- Helper: one unfolding step of `List.lookup` on a key-value cons cell. -/
theorem lookup_cons_pair {C : Type} (k a : String) (v : C) (xs : List (String × C)) :
    List.lookup a ((k, v) :: xs) = if a == k then some v else List.lookup a xs := by
  cases hk : a == k <;> simp [List.lookup, hk]

/-- Helper: `List.lookup` ignores appended entries when the key is already
bound. -/
theorem lookup_append_isSome {C : Type} (l l' : FileSys C) (a : String)
    (h : (l.lookup a).isSome = true) : (l ++ l').lookup a = l.lookup a := by
  induction l with
  | nil => simp [List.lookup] at h
  | cons x xs ih =>
    rcases x with ⟨k, v⟩
    rw [lookup_cons_pair] at h
    rw [List.cons_append, lookup_cons_pair, lookup_cons_pair]
    by_cases hk : (a == k) = true
    · rw [if_pos hk, if_pos hk]
    · rw [if_neg hk] at h
      rw [if_neg hk, if_neg hk]
      exact ih h

/-- Helper: the downsample loop never rewrites an already-existing file: every
iteration either stops (result too small), skips an existing derived file, or
appends a name that was not yet bound. -/
theorem downsampleLoop_preserves {C : Type} (newFile : ℚ → C) (timeLen : Nat)
    (base : String) (L : List ℚ) :
    ∀ (fs : FileSys C) (name : String), (fs.lookup name).isSome = true →
      (downsampleLoop newFile timeLen base fs L).lookup name = fs.lookup name := by
  induction L with
  | nil => intro fs name _; rfl
  | cons factor rest ih =>
    intro fs name h
    show (if (timeLen : ℚ) / factor < 1000 then fs
      else if (fs.lookup (ds_file_name base factor)).isSome then
        downsampleLoop newFile timeLen base fs rest
      else downsampleLoop newFile timeLen base
        (fs ++ [(ds_file_name base factor, newFile factor)]) rest).lookup name
      = fs.lookup name
    by_cases hsmall : (timeLen : ℚ) / factor < 1000
    · rw [if_pos hsmall]
    · rw [if_neg hsmall]
      by_cases hex : (fs.lookup (ds_file_name base factor)).isSome = true
      · rw [if_pos hex]
        exact ih fs name h
      · rw [if_neg hex]
        have h' : ((fs ++ [(ds_file_name base factor, newFile factor)]).lookup
            name).isSome = true := by
          rw [lookup_append_isSome fs _ name h]
          exact h
        rw [ih _ name h', lookup_append_isSome fs _ name h]

/-- **C8**: re-invoking the downsample command with a factor whose derived file
already exists performs no mutation at all (the per-factor body hits the
`ds_file.exists()` check and `continue`s, or the too-small check and `break`s,
before any Writer is engaged); and more generally no invocation of the command
ever changes an existing file's content. -/
theorem c8_downsample_idempotent :
    (∀ (C : Type) (newFile : ℚ → C) (timeLen : Nat) (base : String) (F : ℚ)
      (fs : FileSys C), 1 ≤ F →
      (fs.lookup (ds_file_name base F)).isSome = true →
      downsampleCmd newFile timeLen base (some F) fs = fs) ∧
    (∀ (C : Type) (newFile : ℚ → C) (timeLen : Nat) (base : String)
      (ds_factor : Option ℚ) (fs : FileSys C) (name : String),
      (fs.lookup name).isSome = true →
      (downsampleCmd newFile timeLen base ds_factor fs).lookup name
        = fs.lookup name) := by
  constructor
  · intro C newFile timeLen base F fs h1 h
    show (downsampleLoop newFile timeLen base fs (ds_list_of (some F))) = fs
    rw [ds_list_of, if_pos h1]
    show (if (timeLen : ℚ) / F < 1000 then fs
      else if (fs.lookup (ds_file_name base F)).isSome then
        downsampleLoop newFile timeLen base fs []
      else downsampleLoop newFile timeLen base
        (fs ++ [(ds_file_name base F, newFile F)]) []) = fs
    by_cases hsmall : (timeLen : ℚ) / F < 1000
    · rw [if_pos hsmall]
    · rw [if_neg hsmall, if_pos h]
      rfl
  · intro C newFile timeLen base ds_factor fs name h
    exact downsampleLoop_preserves newFile timeLen base (ds_list_of ds_factor)
      fs name h

/-- Witness for C8: a directory already holding the factor-100 derived file of
`rec.h5`; a 1,000,000-sample source is large enough for downsampling. -/
theorem c8_downsample_idempotent_witness :
    ((1 : ℚ) ≤ 100 ∧
      (([(ds_file_name "rec" 100, "old")] : FileSys String).lookup
        (ds_file_name "rec" 100)).isSome = true) ∧
    downsampleCmd (fun _ => "fresh") 1000000 "rec" (some 100)
      [(ds_file_name "rec" 100, "old")] = [(ds_file_name "rec" 100, "old")] := by
  have h : (([(ds_file_name "rec" 100, "old")] : FileSys String).lookup
      (ds_file_name "rec" 100)).isSome = true := by
    simp [List.lookup]
  exact ⟨⟨by norm_num, h⟩,
    c8_downsample_idempotent.1 String (fun _ => "fresh") 1000000 "rec" 100
      [(ds_file_name "rec" 100, "old")] (by norm_num) h⟩

/-- **C7, amended**: `check_timediffs` returns true iff `data_timediffs` found
*at most* one distinct inter-buffer delta (zero distinct deltas — a store with
fewer than two sampled buffer starts — also yields true), and the delta list is
duplicate-free, so its length is the number of unique deltas.  More than one
delta hence returns false; the source only logs a warning in that case. -/
theorem c7_check_timediffs (cal_t : CalibrationPair) (time : List ℚ) (maxE : Nat) :
    (check_timediffs cal_t time maxE = true ↔
      (data_timediffs cal_t time maxE).length ≤ 1) ∧
    (data_timediffs cal_t time maxE).Nodup := by
  constructor
  · simp [check_timediffs]
  · exact List.nodup_dedup _


/-- **C7, counterexample**: on a well-formed store of exactly one buffer
(10,000 samples), `data_timediffs` samples a single buffer start, so *zero*
inter-buffer deltas exist — not "exactly one" — and `check_timediffs` still
returns true.  The code's condition is `len(diffs) <= 1`, not `== 1`. -/
theorem c7_check_timediffs_cex :
    check_timediffs ⟨1 / 10 ^ 9, 0⟩ c7OneBufTime max_elements = true ∧
    (data_timediffs ⟨1 / 10 ^ 9, 0⟩ c7OneBufTime max_elements).length = 0 := by
  have hlen : c7OneBufTime.length = 10000 := by
    unfold c7OneBufTime
    rw [List.length_map, List.length_range]
  have hstride : (strideSlice c7OneBufTime 0 (0 + max_elements)
      samples_per_buffer).length = 1 := by
    simp only [strideSlice, List.length_map, List.length_range, hlen]
    norm_num [samples_per_buffer, max_elements, samplerate_sps_default]
  have hcalc : calc_timediffs c7OneBufTime max_elements 0 = [] := by
    simp only [calc_timediffs]
    rw [List.drop_eq_nil_of_le (by rw [hstride])]
    rfl
  have hchunk : chunkStarts c7OneBufTime.length max_elements = [0] := by
    rw [hlen]
    decide
  have hdt : data_timediffs ⟨1 / 10 ^ 9, 0⟩ c7OneBufTime max_elements = [] := by
    simp only [data_timediffs, hchunk, List.map_cons, List.map_nil, hcalc]
    rfl
  constructor
  · show decide ((data_timediffs ⟨1 / 10 ^ 9, 0⟩ c7OneBufTime max_elements).length
      ≤ 1) = true
    rw [hdt]
    rfl
  · rw [hdt]
    rfl


/-- Helper: `range(0, 0, step)` is empty. -/
theorem chunkStarts_zero (step : Nat) (hstep : 0 < step) : chunkStarts 0 step = [] := by
  unfold chunkStarts
  rw [Nat.zero_add, Nat.div_eq_of_lt (by omega)]
  rfl

/-- Helper: for `0 < n` the chunk starts are `0` followed by the starts for the
remaining `n - step` elements, shifted by `step`. -/
theorem chunkStarts_cons (n step : Nat) (hstep : 0 < step) (hn : 0 < n) :
    chunkStarts n step = 0 :: (chunkStarts (n - step) step).map (· + step) := by
  have hq : (n + step - 1) / step = (n - step + step - 1) / step + 1 := by
    have h1 : n + step - 1 = (n - 1) + step := by omega
    rw [h1, Nat.add_div_right _ hstep]
    rcases le_or_lt step n with hle | hlt
    · have h2 : n - step + step - 1 = n - 1 := by omega
      rw [h2]
    · have h2 : n - step + step - 1 = step - 1 := by omega
      rw [h2, Nat.div_eq_of_lt (by omega), Nat.div_eq_of_lt (by omega)]
  unfold chunkStarts
  rw [hq, List.range_succ_eq_map, List.map_cons, List.map_map, List.map_map]
  refine congrArg₂ _ (by simp) ?_
  apply List.map_congr_left
  intro i _
  simp [Function.comp, Nat.succ_mul]

/-- Helper: a slice of a dropped list is a shifted slice. -/
theorem listSlice_drop (l : List ℚ) (k s b : Nat) :
    listSlice (l.drop k) s b = listSlice l (s + k) (b + k) := by
  unfold listSlice
  rw [List.drop_drop]
  have h1 : k + s = s + k := Nat.add_comm k s
  have h2 : b - s = b + k - (s + k) := by omega
  rw [h1, h2]

/-- Helper: dropping one chunk from both channels shifts the per-chunk energy
computation by `maxE`. -/
theorem calc_energy_shift (cal_v cal_c : CalibrationPair) (v c : List ℚ) (dt : ℚ)
    (maxE s : Nat) (hmE : maxE ≤ v.length) :
    _calc_energy cal_v cal_c (v.drop maxE) (c.drop maxE) (v.length - maxE) maxE dt s
      = _calc_energy cal_v cal_c v c v.length maxE dt (s + maxE) := by
  simp only [_calc_energy]
  rw [listSlice_drop v maxE s (min (s + maxE) (v.length - maxE)),
    listSlice_drop c maxE s (min (s + maxE) (v.length - maxE))]
  have h : min (s + maxE) (v.length - maxE) + maxE = min (s + maxE + maxE) v.length := by
    omega
  rw [h]

/-- Helper: the elementwise product of two SI-converted arrays. -/
theorem zipWith_mul_map (f g : ℚ → ℚ) : ∀ (A B : List ℚ),
    List.zipWith (· * ·) (A.map f) (B.map g)
      = List.zipWith (fun a b => f a * g b) A B
  | [], _ => by simp
  | _ :: _, [] => by simp
  | a :: A, b :: B => by
    simp only [List.map_cons, List.zipWith_cons_cons]
    rw [zipWith_mul_map f g A B]

/-- Helper, core of C5: the chunked partial-sum energy equals the single-pass
total, for every chunk size `maxE > 0` and channels of equal length. -/
theorem energy_chunked_eq_flat (cal_v cal_c : CalibrationPair) (dt : ℚ) (maxE : Nat)
    (hmax : 0 < maxE) :
    ∀ (N : Nat) (voltage current : List ℚ), voltage.length ≤ N →
      current.length = voltage.length →
      energy_chunked cal_v cal_c voltage current voltage.length maxE dt
        = (List.zipWith (fun a b => cal_v.raw_to_si a * cal_c.raw_to_si b)
            voltage current).sum * dt := by
  intro N
  induction N with
  | zero =>
    intro v c hle hlen
    have hv : v = [] := List.eq_nil_of_length_eq_zero (Nat.le_zero.mp hle)
    subst hv
    have hc : c = [] := List.eq_nil_of_length_eq_zero (by omega)
    subst hc
    simp [energy_chunked, chunkStarts_zero _ hmax]
  | succ N ih =>
    intro v c hle hlen
    by_cases hv0 : v.length = 0
    · have hv : v = [] := List.eq_nil_of_length_eq_zero hv0
      subst hv
      have hc : c = [] := List.eq_nil_of_length_eq_zero (by omega)
      subst hc
      simp [energy_chunked, chunkStarts_zero _ hmax]
    · have hvpos : 0 < v.length := Nat.pos_of_ne_zero hv0
      unfold energy_chunked
      rw [chunkStarts_cons _ _ hmax hvpos, List.map_cons, List.sum_cons, List.map_map]
      have hhead : _calc_energy cal_v cal_c v c v.length maxE dt 0
          = (List.zipWith (fun a b => cal_v.raw_to_si a * cal_c.raw_to_si b)
              (v.take maxE) (c.take maxE)).sum * dt := by
        simp only [_calc_energy, listSlice, List.drop_zero, Nat.sub_zero]
        rw [zipWith_mul_map]
        have h1 : v.take (min (0 + maxE) v.length) = v.take maxE :=
          List.take_eq_take.mpr (by omega)
        have h2 : c.take (min (0 + maxE) v.length) = c.take maxE :=
          List.take_eq_take.mpr (by omega)
        rw [h1, h2]
      have htail : ((chunkStarts (v.length - maxE) maxE).map
          ((_calc_energy cal_v cal_c v c v.length maxE dt) ∘ (· + maxE))).sum
          = energy_chunked cal_v cal_c (v.drop maxE) (c.drop maxE)
              (v.drop maxE).length maxE dt := by
        unfold energy_chunked
        rw [List.length_drop]
        apply congrArg
        apply List.map_congr_left
        intro s hs
        have hmE : maxE ≤ v.length := by
          by_contra hlt
          push_neg at hlt
          have h0 : v.length - maxE = 0 := by omega
          rw [h0, chunkStarts_zero _ hmax] at hs
          exact absurd hs (List.not_mem_nil s)
        simp only [Function.comp]
        exact (calc_energy_shift cal_v cal_c v c dt maxE s hmE).symm
      rw [hhead, htail,
        ih (v.drop maxE) (c.drop maxE) (by rw [List.length_drop]; omega)
          (by rw [List.length_drop, List.length_drop]; omega)]
      have hsplit : (List.zipWith (fun a b =>
            cal_v.raw_to_si a * cal_c.raw_to_si b) v c).sum
          = (List.zipWith (fun a b => cal_v.raw_to_si a * cal_c.raw_to_si b)
              (v.take maxE) (c.take maxE)).sum
            + (List.zipWith (fun a b => cal_v.raw_to_si a * cal_c.raw_to_si b)
                (v.drop maxE) (c.drop maxE)).sum := by
        rw [← List.take_zipWith, ← List.drop_zipWith, List.sum_take_add_sum_drop]
      rw [hsplit]
      ring

/-- Helper: the chunked energy with an explicitly given time-dataset length. -/
theorem energy_chunked_eq_flat_len (cal_v cal_c : CalibrationPair) (dt : ℚ)
    (maxE : Nat) (hmax : 0 < maxE) (n : Nat) (v c : List ℚ)
    (hv : v.length = n) (hc : c.length = n) :
    energy_chunked cal_v cal_c v c n maxE dt
      = (List.zipWith (fun a b => cal_v.raw_to_si a * cal_c.raw_to_si b) v c).sum
        * dt := by
  subst hv
  exact energy_chunked_eq_flat cal_v cal_c dt maxE hmax v.length v c le_rfl hc

/-- Helper: `zipWith` over two constant channels. -/
theorem zipWith_replicate_pair (f : ℚ → ℚ → ℚ) (a b : ℚ) :
    ∀ n : Nat, List.zipWith f (List.replicate n a) (List.replicate n b)
      = List.replicate n (f a b)
  | 0 => rfl
  | n + 1 => by
    simp only [List.replicate_succ, List.zipWith_cons_cons]
    rw [zipWith_replicate_pair f a b n]


/-- **C5**: `energy()` — the chunked partial-sum computation over the constant
`max_elements`-sized chunks — equals the single-pass total
`Σ voltage_si[k] * current_si[k] * sample_interval_s` on every store with
equal-length channels; and on a constant store of 2.0 V and 0.5 A sampled at
100,000 sps for 10 seconds it is exactly 10.0 Ws (so certainly within the 1%
tolerance). -/
theorem c5_energy_chunked_equals_single_pass :
    (∀ r : Reader,
      r.dgrp.voltage.data.length = r.dgrp.time.data.length →
      r.dgrp.current.data.length = r.dgrp.time.data.length →
      Reader.energy r
        = (List.zipWith (fun a b =>
            r.cal.voltage.raw_to_si a * r.cal.current.raw_to_si b)
            r.dgrp.voltage.data r.dgrp.current.data).sum * r.sample_interval_s) ∧
    Reader.energy energyDemoReader = 10 ∧
    |Reader.energy energyDemoReader - 10| ≤ 1 / 100 * 10 := by
  have hmax : 0 < max_elements := by
    norm_num [max_elements, samplerate_sps_default]
  have hpart1 : ∀ r : Reader,
      r.dgrp.voltage.data.length = r.dgrp.time.data.length →
      r.dgrp.current.data.length = r.dgrp.time.data.length →
      Reader.energy r
        = (List.zipWith (fun a b =>
            r.cal.voltage.raw_to_si a * r.cal.current.raw_to_si b)
            r.dgrp.voltage.data r.dgrp.current.data).sum * r.sample_interval_s := by
    intro r hv hc
    unfold Reader.energy
    rw [← hv]
    exact energy_chunked_eq_flat_len r.cal.voltage r.cal.current r.sample_interval_s
      max_elements hmax r.dgrp.voltage.data.length r.dgrp.voltage.data
      r.dgrp.current.data rfl (hc.trans hv.symm)
  have e_t : energyDemoReader.dgrp.time.data
      = (0 : ℚ) :: (List.range 999999).map (fun k : ℕ => ((k : ℚ) + 1) * 10000) :=
    rfl
  have hlen_t : ((0 : ℚ)
      :: (List.range 999999).map (fun k : ℕ => ((k : ℚ) + 1) * 10000)).length
      = 1000000 := by
    rw [List.length_cons, List.length_map, List.length_range]
  have e_v : energyDemoReader.dgrp.voltage.data = List.replicate 1000000 2 := rfl
  have e_c : energyDemoReader.dgrp.current.data = List.replicate 1000000 1 := rfl
  have e_cv : energyDemoReader.cal.voltage = ⟨1, 0⟩ := rfl
  have e_cc : energyDemoReader.cal.current = ⟨1 / 2, 0⟩ := rfl
  have e_dt : energyDemoReader.sample_interval_s = 1 / ((100000 : ℕ) : ℚ) := rfl
  have hv : energyDemoReader.dgrp.voltage.data.length
      = energyDemoReader.dgrp.time.data.length := by
    rw [e_t, e_v, List.length_replicate, hlen_t]
  have hc : energyDemoReader.dgrp.current.data.length
      = energyDemoReader.dgrp.time.data.length := by
    rw [e_t, e_c, List.length_replicate, hlen_t]
  have hdemo : Reader.energy energyDemoReader = 10 := by
    rw [hpart1 energyDemoReader hv hc]
    simp only [e_v, e_c, e_cv, e_cc, e_dt]
    rw [zipWith_replicate_pair]
    have hval : CalibrationPair.raw_to_si ⟨1, 0⟩ 2
        * CalibrationPair.raw_to_si ⟨1 / 2, 0⟩ 1 = 1 := by
      norm_num [CalibrationPair.raw_to_si]
    rw [hval, List.sum_replicate, nsmul_eq_mul]
    norm_num
  exact ⟨hpart1, hdemo, by rw [hdemo]; norm_num⟩

/-- Witness for C5: the equal-length hypotheses hold on the constant demo store,
where the chunked energy equals the single-pass total (both are 10 Ws). -/
theorem c5_energy_chunked_equals_single_pass_witness :
    (energyDemoReader.dgrp.voltage.data.length
        = energyDemoReader.dgrp.time.data.length ∧
      energyDemoReader.dgrp.current.data.length
        = energyDemoReader.dgrp.time.data.length) ∧
    Reader.energy energyDemoReader
      = (List.zipWith (fun a b =>
          energyDemoReader.cal.voltage.raw_to_si a
            * energyDemoReader.cal.current.raw_to_si b)
          energyDemoReader.dgrp.voltage.data energyDemoReader.dgrp.current.data).sum
        * energyDemoReader.sample_interval_s ∧
    Reader.energy energyDemoReader = 10 := by
  have e_t : energyDemoReader.dgrp.time.data
      = (0 : ℚ) :: (List.range 999999).map (fun k : ℕ => ((k : ℚ) + 1) * 10000) :=
    rfl
  have hlen_t : ((0 : ℚ)
      :: (List.range 999999).map (fun k : ℕ => ((k : ℚ) + 1) * 10000)).length
      = 1000000 := by
    rw [List.length_cons, List.length_map, List.length_range]
  have e_v : energyDemoReader.dgrp.voltage.data = List.replicate 1000000 2 := rfl
  have e_c : energyDemoReader.dgrp.current.data = List.replicate 1000000 1 := rfl
  have hv : energyDemoReader.dgrp.voltage.data.length
      = energyDemoReader.dgrp.time.data.length := by
    rw [e_t, e_v, List.length_replicate, hlen_t]
  have hc : energyDemoReader.dgrp.current.data.length
      = energyDemoReader.dgrp.time.data.length := by
    rw [e_t, e_c, List.length_replicate, hlen_t]
  exact ⟨⟨hv, hc⟩, c5_energy_chunked_equals_single_pass.1 energyDemoReader hv hc,
    c5_energy_chunked_equals_single_pass.2.1⟩


/-- Helper: folding an idempotent operation over a constant list. -/
theorem foldl_const_replicate (f : ℝ → ℝ → ℝ) (a : ℝ) (hf : f a a = a) :
    ∀ m : Nat, (List.replicate m a).foldl f a = a
  | 0 => rfl
  | m + 1 => by
    rw [List.replicate_succ, List.foldl_cons, hf]
    exact foldl_const_replicate f a hf m

/-- Helper: the mean of a constant array. -/
theorem npMean_replicate (n : Nat) (hn : n ≠ 0) (a : ℝ) :
    npMean (List.replicate n a) = a := by
  unfold npMean
  rw [List.sum_replicate, List.length_replicate, nsmul_eq_mul]
  exact mul_div_cancel_left₀ a (Nat.cast_ne_zero.mpr hn)

/-- Helper: the minimum of a constant array. -/
theorem npMin_replicate (n : Nat) (hn : n ≠ 0) (a : ℝ) :
    npMin (List.replicate n a) = a := by
  cases n with
  | zero => exact absurd rfl hn
  | succ m =>
    rw [List.replicate_succ]
    exact foldl_const_replicate min a (min_self a) m

/-- Helper: the maximum of a constant array. -/
theorem npMax_replicate (n : Nat) (hn : n ≠ 0) (a : ℝ) :
    npMax (List.replicate n a) = a := by
  cases n with
  | zero => exact absurd rfl hn
  | succ m =>
    rw [List.replicate_succ]
    exact foldl_const_replicate max a (max_self a) m

/-- Helper: the standard deviation of a constant array is zero. -/
theorem npStd_replicate (n : Nat) (hn : n ≠ 0) (a : ℝ) :
    npStd (List.replicate n a) = 0 := by
  unfold npStd
  rw [npMean_replicate n hn a, List.map_replicate]
  have h0 : (a - a) ^ 2 = (0 : ℝ) := by ring
  rw [h0]
  cases n with
  | zero => exact absurd rfl hn
  | succ m =>
    rw [npMean_replicate (m + 1) (Nat.succ_ne_zero m) 0, Real.sqrt_zero]

/-- Helper: the per-chunk statistics of a constant chunk. -/
theorem calc_statistics_replicate (n : Nat) (hn : n ≠ 0) (a : ℝ) :
    _calc_statistics (List.replicate n a) = [a, a, a, 0] := by
  unfold _calc_statistics
  rw [npMean_replicate n hn a, npMin_replicate n hn a, npMax_replicate n hn a,
    npStd_replicate n hn a]


/-- **C6, code bug**: on the 8,000,000-sample dataset `c6Dset` (first half raw 0,
second half raw 1, unit calibration attributes, so SI conversion applies with
`si_converted = true`), `_dset_statistics` combines the two chunks as the *mean
of the per-chunk standard deviations* and returns `std = 0`, while the standard
deviation of the whole SI-converted dataset is `1/2`.  The source marks this
combination step itself as wrong (`# TODO: sooo wrong :)`). -/
theorem c6_dset_statistics_bug :
    Option.map DsetStats.std (_dset_statistics c6Dset none max_elements) = some 0 ∧
    npStd (c6Dset.data.map fun x =>
      ((CalibrationPair.raw_to_si ⟨1, 0⟩ x : ℚ) : ℝ)) = 1 / 2 ∧
    (0 : ℝ) ≠ 1 / 2 ∧
    Option.map DsetStats.si_converted (_dset_statistics c6Dset none max_elements)
      = some true := by
  have hconv0 : ((CalibrationPair.raw_to_si ⟨1, 0⟩ (0 : ℚ) : ℚ) : ℝ) = 0 := by
    norm_num [CalibrationPair.raw_to_si]
  have hconv1 : ((CalibrationPair.raw_to_si ⟨1, 0⟩ (1 : ℚ) : ℚ) : ℝ) = 1 := by
    norm_num [CalibrationPair.raw_to_si]
  have hmean : npMean (List.replicate 4000000 (0 : ℝ)
      ++ List.replicate 4000000 1) = 1 / 2 := by
    unfold npMean
    rw [List.sum_append, List.sum_replicate, List.sum_replicate, List.length_append,
      List.length_replicate, List.length_replicate]
    norm_num
  have hstd : npStd (List.replicate 4000000 (0 : ℝ)
      ++ List.replicate 4000000 1) = 1 / 2 := by
    unfold npStd
    rw [hmean, List.map_append, List.map_replicate, List.map_replicate]
    have hq0 : ((0 : ℝ) - 1 / 2) ^ 2 = 1 / 4 := by norm_num
    have hq1 : ((1 : ℝ) - 1 / 2) ^ 2 = 1 / 4 := by norm_num
    rw [hq0, hq1]
    have h14 : npMean (List.replicate 4000000 ((1 : ℝ) / 4)
        ++ List.replicate 4000000 (1 / 4)) = 1 / 4 := by
      unfold npMean
      rw [List.sum_append, List.sum_replicate, List.length_append,
        List.length_replicate]
      norm_num
    rw [h14, show (1 / 4 : ℝ) = (1 / 2) ^ 2 by norm_num,
      Real.sqrt_sq (by norm_num : (0 : ℝ) ≤ 1 / 2)]
  have hmapdata : (c6Dset.data.map fun x =>
      ((CalibrationPair.raw_to_si ⟨1, 0⟩ x : ℚ) : ℝ))
      = List.replicate 4000000 (0 : ℝ) ++ List.replicate 4000000 1 := by
    show ((List.replicate 4000000 (0 : ℚ) ++ List.replicate 4000000 1).map fun x =>
      ((CalibrationPair.raw_to_si ⟨1, 0⟩ x : ℚ) : ℝ)) = _
    rw [List.map_append, List.map_replicate, List.map_replicate, hconv0, hconv1]
  have hlen : c6Dset.data.length = 8000000 := by
    show (List.replicate 4000000 (0 : ℚ) ++ List.replicate 4000000 1).length = 8000000
    rw [List.length_append, List.length_replicate, List.length_replicate]
  have hchunk : chunkStarts 8000000 max_elements = [0, 4000000] := by decide
  have hslice0 : listSlice c6Dset.data 0 (0 + max_elements)
      = List.replicate 4000000 (0 : ℚ) := by
    show listSlice (List.replicate 4000000 (0 : ℚ) ++ List.replicate 4000000 1) 0
      (0 + max_elements) = _
    unfold listSlice
    rw [List.drop_zero,
      show 0 + max_elements - 0 = 4000000 by
        norm_num [max_elements, samplerate_sps_default]]
    exact List.take_left' (List.length_replicate 4000000 0)
  have hslice1 : listSlice c6Dset.data 4000000 (4000000 + max_elements)
      = List.replicate 4000000 (1 : ℚ) := by
    show listSlice (List.replicate 4000000 (0 : ℚ) ++ List.replicate 4000000 1)
      4000000 (4000000 + max_elements) = _
    unfold listSlice
    rw [List.drop_left' (List.length_replicate 4000000 (0 : ℚ)),
      show 4000000 + max_elements - 4000000 = 4000000 by
        norm_num [max_elements, samplerate_sps_default],
      List.take_replicate]
    norm_num
  have hm0 : (List.replicate 4000000 (0 : ℚ)).map (fun x =>
      ((CalibrationPair.raw_to_si ⟨1, 0⟩ x : ℚ) : ℝ))
      = List.replicate 4000000 (0 : ℝ) := by
    rw [List.map_replicate, hconv0]
  have hm1 : (List.replicate 4000000 (1 : ℚ)).map (fun x =>
      ((CalibrationPair.raw_to_si ⟨1, 0⟩ x : ℚ) : ℝ))
      = List.replicate 4000000 (1 : ℝ) := by
    rw [List.map_replicate, hconv1]
  have hg : c6Dset.gain = some 1 := rfl
  have ho : c6Dset.offset = some 0 := rfl
  have hds : _dset_statistics c6Dset none max_elements
      = some ⟨npMean [(0 : ℝ), 1], npMin [(0 : ℝ), 1], npMax [(0 : ℝ), 1],
          npMean [(0 : ℝ), 0], true⟩ := by
    simp only [_dset_statistics, hg, ho, hlen, hchunk, List.map_cons, List.map_nil,
      hslice0, hslice1, hm0, hm1,
      calc_statistics_replicate 4000000 (by norm_num) (0 : ℝ),
      calc_statistics_replicate 4000000 (by norm_num) (1 : ℝ)]
    norm_num [List.getD]
  refine ⟨?_, ?_, by norm_num, ?_⟩
  · rw [hds, Option.map_some']
    show some (npMean [(0 : ℝ), 0]) = some 0
    rw [show npMean [(0 : ℝ), 0] = 0 by
      norm_num [npMean, List.sum_cons, List.sum_nil]]
  · rw [hmapdata, hstd]
  · rw [hds]
    rfl

end Shepherd
